import Mathlib

/-!
Shallow embedding of `src/battery-module.c` (Acer Switch 11 battery kernel
module).  The register transport (`read_byte_register`, with its 5-attempt
retry loops over an abstract bus outcome oracle), the telemetry derivations
(`battery_energy`, `battery_rate`, `battery_status`, ...) and the property
dispatcher (`battery_get_property`) are translated directly from the C
source.  Machine integers are modelled as `Nat`/`Int` with explicit
reductions modulo `2 ^ 32` / `2 ^ 64` at the points where the C types
(`unsigned int`, `int`, `unsigned long long`, `u8`) truncate or convert.
-/

namespace AcerSwitchBattery

/-- Value of `POWER_SUPPLY_STATUS_UNKNOWN` in the Linux power-supply headers. -/
def POWER_SUPPLY_STATUS_UNKNOWN : Nat := 0

/-- Value of `POWER_SUPPLY_STATUS_CHARGING` in the Linux power-supply headers. -/
def POWER_SUPPLY_STATUS_CHARGING : Nat := 1

/-- Value of `POWER_SUPPLY_STATUS_DISCHARGING` in the Linux power-supply headers. -/
def POWER_SUPPLY_STATUS_DISCHARGING : Nat := 2

/-- Value of `POWER_SUPPLY_STATUS_FULL` in the Linux power-supply headers. -/
def POWER_SUPPLY_STATUS_FULL : Nat := 4

/-- Value of `POWER_SUPPLY_CAPACITY_LEVEL_CRITICAL` in the Linux power-supply headers. -/
def POWER_SUPPLY_CAPACITY_LEVEL_CRITICAL : Nat := 1

/-- Value of `POWER_SUPPLY_CAPACITY_LEVEL_LOW` in the Linux power-supply headers. -/
def POWER_SUPPLY_CAPACITY_LEVEL_LOW : Nat := 2

/-- Value of `POWER_SUPPLY_CAPACITY_LEVEL_NORMAL` in the Linux power-supply headers. -/
def POWER_SUPPLY_CAPACITY_LEVEL_NORMAL : Nat := 3

/-- Value of `POWER_SUPPLY_CAPACITY_LEVEL_FULL` in the Linux power-supply headers. -/
def POWER_SUPPLY_CAPACITY_LEVEL_FULL : Nat := 5

/-- Value of `POWER_SUPPLY_TECHNOLOGY_LION` in the Linux power-supply headers. -/
def POWER_SUPPLY_TECHNOLOGY_LION : Int := 2

/-- Value of the `EINVAL` errno constant. -/
def EINVAL : Int := 22

/-- Bus address of the battery (`BATTERY_I2C_ADDRESS`, line 20). -/
def BATTERY_I2C_ADDRESS : Nat := 0x70

/-- Register constant `BATTERY_REGISTER_STATUS` (line 22). -/
def BATTERY_REGISTER_STATUS : Nat := 0xC1

/-- Register constant `BATTERY_REGISTER_RATE` (line 23). -/
def BATTERY_REGISTER_RATE : Nat := 0xD0

/-- Register constant `BATTERY_REGISTER_ENERGY` (line 24). -/
def BATTERY_REGISTER_ENERGY : Nat := 0xC2

/-- Register constant `BATTERY_REGISTER_VOLTAGE` (line 25). -/
def BATTERY_REGISTER_VOLTAGE : Nat := 0xC6

/-- Modulus of the C type `unsigned int` (32 bits). -/
def U32 : Nat := 2 ^ 32

/-- Modulus of the C type `unsigned long long` (64 bits). -/
def U64 : Nat := 2 ^ 64

/-- Conversion of a 32-bit unsigned value to the C `int` it is assigned to
(two's-complement reinterpretation, as gcc defines the conversion). -/
def toS32 (n : Nat) : Int :=
  if n % U32 < 2 ^ 31 then ((n % U32 : Nat) : Int)
  else ((n % U32 : Nat) : Int) - (U32 : Int)

/-- Conversion of a C `int` value to `unsigned long long` (reduction modulo
`2 ^ 64`, yielding a nonnegative representative). -/
def toU64 (x : Int) : Nat := (x % (U64 : Int)).toNat

/-- Model of `struct i2c_msg` with the fields the driver sets: slave
address, transfer length, flags (0 = write, `I2C_M_RD` = read) and the
outgoing buffer contents. -/
structure I2CMsg where
  addr : Nat
  len : Nat
  flags : Nat
  buf : List Nat
deriving DecidableEq

/-- Value of the `I2C_M_RD` flag. -/
def I2C_M_RD : Nat := 1

/-- Write-phase message built by `read_byte_register` (lines 103-115): the
8-byte buffer `bufo` is zero-initialised, its first three bytes are set to
`0x02`, `0x80` and the register address, and `msg.len` is set to 5. -/
def write_msg (reg : Nat) : I2CMsg :=
  { addr := BATTERY_I2C_ADDRESS, len := 5, flags := 0,
    buf := [0x02, 0x80, reg % 256, 0, 0, 0, 0, 0] }

/-- Bytes actually sent on the wire by a write transfer: the first `len`
bytes of the buffer. -/
def sent_bytes (m : I2CMsg) : List Nat := m.buf.take m.len

/-- Retry ceiling `max_tries` of `read_byte_register` (line 107). -/
def max_tries : Nat := 5

/-- Index of the first attempt (starting at `i`, for at most `fuel`
attempts) whose `i2c_transfer` outcome is 1, mirroring the C retry loop
that breaks on `ret == 1`. -/
def firstSuccessAux (res : Nat → Int) (i : Nat) : Nat → Option Nat
  | 0 => none
  | fuel + 1 => if res i = 1 then some i else firstSuccessAux res (i + 1) fuel

/-- Index of the first successful attempt among attempts `0 .. n-1`. -/
def firstSuccess (res : Nat → Int) (n : Nat) : Option Nat :=
  firstSuccessAux res 0 n

/-- Observable outcome of one `read_byte_register` call: the returned byte,
the list of write-phase messages sent (one per write attempt) and the
number of read-phase transfers attempted. -/
structure ReadByteExec where
  value : Nat
  writeMsgs : List I2CMsg
  readAttempts : Nat
deriving DecidableEq

/-- Embedding of `read_byte_register` (lines 101-143).  `wRes i` is the
result of the i-th write-phase `i2c_transfer` call, `rRes j` the result of
the j-th read-phase call, and `rVal j` the byte the device delivers if the
j-th read-phase transfer succeeds.  Each loop runs at most `max_tries`
attempts and breaks on result 1; if the write phase exhausts its attempts
the read phase is never entered and the sentinel `0x00` is returned; if the
read phase exhausts its attempts the sentinel `0x00` is returned; otherwise
the received byte is returned. -/
def read_byte_register (reg : Nat) (wRes rRes : Nat → Int) (rVal : Nat → Nat) :
    ReadByteExec :=
  match firstSuccess wRes max_tries with
  | none => ⟨0x00, List.replicate max_tries (write_msg reg), 0⟩
  | some i =>
    match firstSuccess rRes max_tries with
    | none => ⟨0x00, List.replicate (i + 1) (write_msg reg), max_tries⟩
    | some j => ⟨rVal j % 256, List.replicate (i + 1) (write_msg reg), j + 1⟩

/-- Derivation-layer view of the transport: `dev r` is the byte that
`read_byte_register` yields for register `r` (the sentinel 0 when the
transfers fail).  Register addresses are `u8`, hence the reduction modulo
256 of both the address and the delivered byte. -/
def read_byte (dev : Nat → Nat) (reg : Nat) : Nat := dev (reg % 256) % 256

/-- Embedding of `read_word_register` (lines 150-152):
`(read_byte_register(reg + 1) << 8) | read_byte_register(reg)`. -/
def read_word_register (dev : Nat → Nat) (reg : Nat) : Nat :=
  (read_byte dev (reg + 1)) <<< 8 ||| read_byte dev reg

/-- Embedding of `battery_energy` (lines 156-158). -/
def battery_energy (dev : Nat → Nat) : Nat :=
  read_word_register dev BATTERY_REGISTER_ENERGY * 10

/-- Embedding of `battery_energy_full` (lines 161-163): a fixed constant. -/
def battery_energy_full : Nat := 37500

/-- Embedding of `battery_voltage` (lines 166-168). -/
def battery_voltage (dev : Nat → Nat) : Nat :=
  read_word_register dev BATTERY_REGISTER_VOLTAGE

/-- Embedding of `battery_rate` (lines 171-177): signed-magnitude
correction of the raw RATE word, then multiplication by the voltage.  All
intermediate values stay far below `2 ^ 32`, so the `unsigned int`
arithmetic never wraps. -/
def battery_rate (dev : Nat → Nat) : Nat :=
  let rate := read_word_register dev BATTERY_REGISTER_RATE
  let rate := if rate > 0x7FFF then 0x10000 - rate else rate
  rate * battery_voltage dev

/-- Embedding of `battery_status` (lines 180-191). -/
def battery_status (dev : Nat → Nat) : Nat :=
  let status := read_byte dev BATTERY_REGISTER_STATUS
  if status &&& 0x01 ≠ 0 then POWER_SUPPLY_STATUS_DISCHARGING
  else if status &&& 0x02 ≠ 0 then POWER_SUPPLY_STATUS_CHARGING
  else if status &&& 0x03 = 0 then POWER_SUPPLY_STATUS_FULL
  else POWER_SUPPLY_STATUS_UNKNOWN

/-- Embedding of `battery_capacity` (lines 194-200). -/
def battery_capacity (dev : Nat → Nat) : Nat :=
  let last_full := battery_energy_full
  if last_full = 0 then 0
  else 100 * battery_energy dev / battery_energy_full

/-- Embedding of `battery_capaity_level` (lines 203-213; the typo in the
name is the source's). -/
def battery_capaity_level (dev : Nat → Nat) : Nat :=
  let capacity := battery_capacity dev
  if capacity = 100 then POWER_SUPPLY_CAPACITY_LEVEL_FULL
  else if capacity ≤ 5 then POWER_SUPPLY_CAPACITY_LEVEL_CRITICAL
  else if capacity ≤ 15 then POWER_SUPPLY_CAPACITY_LEVEL_LOW
  else POWER_SUPPLY_CAPACITY_LEVEL_NORMAL

/-- Embedding of `battery_time_to_empty` (lines 216-221).  The product is
computed in `unsigned long long` (it never reaches `2 ^ 64`), the quotient
is truncated to `unsigned int` by the return type. -/
def battery_time_to_empty (dev : Nat → Nat) : Nat :=
  let rate := battery_rate dev
  if rate = 0 then 0
  else (battery_energy dev * 60 * 60 * 1000 / rate) % U32

/-- Embedding of `battery_time_to_full` (lines 224-235), including the
faulty clamp `if (unlikely(energy_missing) < 0) energy_missing = 0;`: the C
macro `unlikely(x)` is `__builtin_expect(!!(x), 0)`, so the condition
compares the 0/1 value of `!!(energy_missing)` with 0 and is always false.
`energy_missing` is a C `int` assigned from an `unsigned int` subtraction,
and is converted to `unsigned long long` for the multiplication. -/
def battery_time_to_full (dev : Nat → Nat) : Nat :=
  let rate := battery_rate dev
  if rate = 0 then 0
  else
    let energy_missing : Int :=
      toS32 ((battery_energy_full + U32 - battery_energy dev) % U32)
    let energy_missing :=
      if (if energy_missing ≠ 0 then (1 : Int) else 0) < 0 then 0
      else energy_missing
    ((((toU64 energy_missing * 60) % U64 * 60) % U64 * 1000) % U64 / rate) % U32

/-- Embedding of `battery_current` (lines 238-242). -/
def battery_current (dev : Nat → Nat) : Nat :=
  let voltage := battery_voltage dev
  if voltage = 0 then 0
  else battery_rate dev / voltage

/-- Property identifiers of `enum power_supply_property`: one constructor
for each identifier named in the source, and `UNHANDLED` for every other
member of the host enum (all of which fall into the dispatcher's `default`
arm). -/
inductive PsyProperty where
  | STATUS
  | CAPACITY
  | TIME_TO_EMPTY_NOW
  | TIME_TO_FULL_NOW
  | VOLTAGE_NOW
  | CURRENT_NOW
  | PRESENT
  | ENERGY_FULL
  | ENERGY_NOW
  | TECHNOLOGY
  | MODEL_NAME
  | MANUFACTURER
  | CAPACITY_LEVEL
  | UNHANDLED (code : Nat)
deriving DecidableEq

/-- Model of `union power_supply_propval`: the member the driver writes. -/
inductive PropVal where
  | intval (v : Int)
  | strval (s : String)
deriving DecidableEq

/-- Manufacturer string of the driver (line 302). -/
def MANUFACTURER_STRING : String := "Acer"

/-- Model-name string of the driver (line 305). -/
def MODEL_NAME_STRING : String := "Acer Switch 11 Battery by jfrimmel"

/-- Advertised property list `battery_properties` (lines 60-74): the fixed
supported set published to the power-supply framework.  Note that
`POWER_SUPPLY_PROP_CAPACITY_LEVEL` is absent from it although the
dispatcher handles it. -/
def battery_properties : List PsyProperty :=
  [.STATUS, .CAPACITY, .TIME_TO_EMPTY_NOW, .TIME_TO_FULL_NOW, .VOLTAGE_NOW,
   .CURRENT_NOW, .PRESENT, .ENERGY_FULL, .ENERGY_NOW, .TECHNOLOGY,
   .MODEL_NAME, .MANUFACTURER]

/-- Embedding of `battery_get_property` (lines 259-313).  The first
component is the C return value (0 on success, `-EINVAL` in the `default`
arm); the second is the value written into `*val` (none in the `default`
arm, where the union is left untouched).  `intval` is a C `int`, so each
`unsigned int` result passes through `toS32`. -/
def battery_get_property (dev : Nat → Nat) (property : PsyProperty) :
    Int × Option PropVal :=
  match property with
  | .CAPACITY => (0, some (.intval (toS32 (battery_capacity dev))))
  | .STATUS => (0, some (.intval (toS32 (battery_status dev))))
  | .TIME_TO_EMPTY_NOW => (0, some (.intval (toS32 (battery_time_to_empty dev))))
  | .TIME_TO_FULL_NOW => (0, some (.intval (toS32 (battery_time_to_full dev))))
  | .VOLTAGE_NOW => (0, some (.intval (toS32 (battery_voltage dev))))
  | .CURRENT_NOW => (0, some (.intval (toS32 (battery_current dev))))
  | .ENERGY_FULL => (0, some (.intval (toS32 (battery_energy_full * 1000 % U32))))
  | .ENERGY_NOW => (0, some (.intval (toS32 (battery_energy dev * 1000 % U32))))
  | .CAPACITY_LEVEL => (0, some (.intval (toS32 (battery_capaity_level dev))))
  | .PRESENT => (0, some (.intval 1))
  | .TECHNOLOGY => (0, some (.intval POWER_SUPPLY_TECHNOLOGY_LION))
  | .MANUFACTURER => (0, some (.strval MANUFACTURER_STRING))
  | .MODEL_NAME => (0, some (.strval MODEL_NAME_STRING))
  | .UNHANDLED _ => (-EINVAL, none)

/-- Specification-side formula for time_to_full, following the spec table:
`max(energy_full - energy_now, 0) * 3,600,000 / rate`, with 0 when the rate
is 0 (`Nat` subtraction is exactly the clamped shortfall).  Kept distinct
from the code embedding `battery_time_to_full` for comparison. -/
def time_to_full_spec (dev : Nat → Nat) : Nat :=
  let rate := battery_rate dev
  if rate = 0 then 0
  else (battery_energy_full - battery_energy dev) * 3600000 / rate

/-- Signed-magnitude correction applied by `battery_rate` (line 174). -/
def signed_magnitude (raw : Nat) : Nat :=
  if raw > 0x7FFF then 0x10000 - raw else raw

/-- Device on which every register read yields the sentinel 0 (the value
`read_byte_register` returns when every bus transfer fails). -/
def devZero : Nat → Nat := fun _ => 0

/-- Device with raw ENERGY bytes low = 0x64, high = 0x00 (energy word 100,
energy_now 1000 mWh) and all other registers 0. -/
def devEnergy100 : Nat → Nat := fun r => if r = 0xC2 then 0x64 else 0

/-- Device with ENERGY word 3750 (energy_now 37500 mWh, exactly full). -/
def devEnergyFull : Nat → Nat := fun r =>
  if r = 0xC2 then 0xA6 else if r = 0xC3 then 0x0E else 0

/-- Device with raw RATE word 0x8000 and voltage 1 mV. -/
def devRate8000 : Nat → Nat := fun r =>
  if r = 0xD1 then 0x80 else if r = 0xC6 then 1 else 0

/-- Device with raw RATE word 0x7FFF and voltage 1 mV. -/
def devRate7FFF : Nat → Nat := fun r =>
  if r = 0xD0 then 0xFF else if r = 0xD1 then 0x7F else if r = 0xC6 then 1 else 0

/-- Device of the end-to-end current scenario: raw RATE word 0xFF9C (the
16-bit two's-complement encoding of -100) and voltage 7400 mV
(word 0x1CE8). -/
def devRateNeg100 : Nat → Nat := fun r =>
  if r = 0xD0 then 0x9C else if r = 0xD1 then 0xFF
  else if r = 0xC6 then 0xE8 else if r = 0xC7 then 0x1C else 0

/-- Device with ENERGY word 3751 (energy_now 37510 mWh, above energy_full),
RATE word 1 and voltage 1 mV (rate 1 mW): the negative-shortfall input of
time_to_full. -/
def devOvercharged : Nat → Nat := fun r =>
  if r = 0xC2 then 0xA7 else if r = 0xC3 then 0x0E
  else if r = 0xD0 then 1 else if r = 0xC6 then 1 else 0

/-- Device with a nonzero raw RATE word but voltage 0. -/
def devVoltageZero : Nat → Nat := fun r => if r = 0xD1 then 0x80 else 0

theorem firstSuccessAux_eq_none (res : Nat → Int) :
    ∀ fuel i, (∀ k, k < fuel → res (i + k) ≠ 1) →
      firstSuccessAux res i fuel = none := by
  intro fuel
  induction fuel with
  | zero => intro i _; rfl
  | succ f ih =>
    intro i h
    have h0 : ¬ res i = 1 := by simpa using h 0 (Nat.succ_pos f)
    have hrec : firstSuccessAux res (i + 1) f = none := by
      apply ih
      intro k hk
      have hx := h (k + 1) (Nat.succ_lt_succ hk)
      have heq : i + (k + 1) = i + 1 + k := by omega
      rwa [heq] at hx
    simp [firstSuccessAux, h0, hrec]

theorem firstSuccessAux_eq_some (res : Nat → Int) :
    ∀ fuel i j, j < fuel → res (i + j) = 1 → (∀ k, k < j → res (i + k) ≠ 1) →
      firstSuccessAux res i fuel = some (i + j) := by
  intro fuel
  induction fuel with
  | zero => intro i j hj _ _; exact absurd hj (Nat.not_lt_zero j)
  | succ f ih =>
    intro i j hj hres hmin
    cases j with
    | zero =>
      have h0 : res i = 1 := by simpa using hres
      simp [firstSuccessAux, h0]
    | succ t =>
      have h0 : ¬ res i = 1 := by simpa using hmin 0 (Nat.succ_pos t)
      have hres2 : res (i + 1 + t) = 1 := by
        have heq : i + (t + 1) = i + 1 + t := by omega
        rwa [heq] at hres
      have hmin2 : ∀ k, k < t → res (i + 1 + k) ≠ 1 := by
        intro k hk
        have hx := hmin (k + 1) (Nat.succ_lt_succ hk)
        have heq : i + (k + 1) = i + 1 + k := by omega
        rwa [heq] at hx
      have hrec := ih (i + 1) t (Nat.lt_of_succ_lt_succ hj) hres2 hmin2
      have heq : i + 1 + t = i + (t + 1) := by omega
      rw [heq] at hrec
      simp [firstSuccessAux, h0, hrec]

theorem firstSuccessAux_bound (res : Nat → Int) :
    ∀ fuel i j, firstSuccessAux res i fuel = some j → j < i + fuel := by
  intro fuel
  induction fuel with
  | zero => intro i j h; exact absurd h (by simp [firstSuccessAux])
  | succ f ih =>
    intro i j h
    by_cases h0 : res i = 1
    · simp [firstSuccessAux, h0] at h
      omega
    · simp [firstSuccessAux, h0] at h
      have := ih (i + 1) j h
      omega

theorem firstSuccess_eq_none (res : Nat → Int) (n : Nat)
    (h : ∀ k < n, res k ≠ 1) : firstSuccess res n = none := by
  apply firstSuccessAux_eq_none
  intro k hk
  simpa using h k hk

theorem firstSuccess_eq_some (res : Nat → Int) (n j : Nat) (hj : j < n)
    (hres : res j = 1) (hmin : ∀ k < j, res k ≠ 1) :
    firstSuccess res n = some j := by
  have h := firstSuccessAux_eq_some res n 0 j hj (by simpa using hres)
    (by intro k hk; simpa using hmin k hk)
  simpa using h

theorem firstSuccess_bound (res : Nat → Int) (n j : Nat)
    (h : firstSuccess res n = some j) : j < n := by
  have hb := firstSuccessAux_bound res n 0 j h
  simpa using hb

theorem read_byte_register_write_exhausted (reg : Nat) (w r : Nat → Int)
    (v : Nat → Nat) (h : ∀ i < max_tries, w i ≠ 1) :
    read_byte_register reg w r v =
      ⟨0x00, List.replicate max_tries (write_msg reg), 0⟩ := by
  simp [read_byte_register, firstSuccess_eq_none w max_tries h]

theorem read_byte_register_read_exhausted (reg : Nat) (w r : Nat → Int)
    (v : Nat → Nat) (i : Nat) (hi : i < max_tries) (hw : w i = 1)
    (hwmin : ∀ k < i, w k ≠ 1) (hr : ∀ k < max_tries, r k ≠ 1) :
    read_byte_register reg w r v =
      ⟨0x00, List.replicate (i + 1) (write_msg reg), max_tries⟩ := by
  simp [read_byte_register, firstSuccess_eq_some w max_tries i hi hw hwmin,
    firstSuccess_eq_none r max_tries hr]

theorem read_byte_register_success (reg : Nat) (w r : Nat → Int)
    (v : Nat → Nat) (i j : Nat) (hi : i < max_tries) (hw : w i = 1)
    (hwmin : ∀ k < i, w k ≠ 1) (hj : j < max_tries) (hr : r j = 1)
    (hrmin : ∀ k < j, r k ≠ 1) :
    read_byte_register reg w r v =
      ⟨v j % 256, List.replicate (i + 1) (write_msg reg), j + 1⟩ := by
  simp [read_byte_register, firstSuccess_eq_some w max_tries i hi hw hwmin,
    firstSuccess_eq_some r max_tries j hj hr hrmin]

theorem read_byte_register_attempt_bounds (reg : Nat) (w r : Nat → Int)
    (v : Nat → Nat) :
    (read_byte_register reg w r v).writeMsgs.length ≤ max_tries ∧
      (read_byte_register reg w r v).readAttempts ≤ max_tries := by
  unfold read_byte_register
  rcases hw : firstSuccess w max_tries with _ | i
  · simp
  · have hi := firstSuccess_bound w max_tries i hw
    rcases hr : firstSuccess r max_tries with _ | j
    · constructor
      · simp
        omega
      · simp
    · have hj := firstSuccess_bound r max_tries j hr
      constructor
      · simp
        omega
      · simp
        omega

/-- Claim C1 as stated is false: when every register read returns the
sentinel 0, the status derivation resolves to FULL (the all-zero status
byte takes the `(status & 0x03) == 0x00` branch), not "unknown", and the
supported numeric properties ENERGY_FULL and PRESENT report the nonzero
values 37500000 and 1 rather than 0. -/
theorem C1_counterexample :
    battery_status devZero ≠ POWER_SUPPLY_STATUS_UNKNOWN ∧
    battery_status devZero = POWER_SUPPLY_STATUS_FULL ∧
    (battery_get_property devZero .ENERGY_FULL).2 = some (.intval 37500000) ∧
    (battery_get_property devZero .PRESENT).2 = some (.intval 1) := by
  decide

/-- Claim C1 (amended): if every bus transfer fails, every register read
returns the sentinel 0; then the measured metrics (energy_now, voltage_now,
rate, current, capacity, time_to_empty, time_to_full) all resolve to 0
without any division by zero, status resolves to FULL, capacity_level to
CRITICAL, the constant-backed properties keep their fixed nonzero values,
and every supported property query succeeds with return code 0 and a value
filled in. -/
theorem C1_amended :
    (∀ reg w r v, (∀ i, w i ≠ 1) →
      (read_byte_register reg w r v).value = 0x00) ∧
    battery_energy devZero = 0 ∧
    battery_voltage devZero = 0 ∧
    battery_rate devZero = 0 ∧
    battery_current devZero = 0 ∧
    battery_capacity devZero = 0 ∧
    battery_time_to_empty devZero = 0 ∧
    battery_time_to_full devZero = 0 ∧
    battery_status devZero = POWER_SUPPLY_STATUS_FULL ∧
    battery_capaity_level devZero = POWER_SUPPLY_CAPACITY_LEVEL_CRITICAL ∧
    (∀ p ∈ battery_properties, (battery_get_property devZero p).1 = 0 ∧
      ((battery_get_property devZero p).2).isSome = true) := by
  refine ⟨?_, ?_⟩
  · intro reg w r v h
    rw [read_byte_register_write_exhausted reg w r v (fun i _ => h i)]
  · decide

/-- Witness for C1_amended at a concrete all-failing bus and property. -/
theorem C1_witness :
    (read_byte_register BATTERY_REGISTER_STATUS (fun _ => -1) (fun _ => -1)
      (fun _ => 0)).value = 0x00 ∧
    (battery_get_property devZero PsyProperty.STATUS).1 = 0 :=
  ⟨C1_amended.1 BATTERY_REGISTER_STATUS (fun _ => -1) (fun _ => -1)
      (fun _ => 0) (fun _ => by norm_num),
   (C1_amended.2.2.2.2.2.2.2.2.2.2 PsyProperty.STATUS (by decide)).1⟩

/-- Claim C2 concerns a code bug: with energy_now = 37510 mWh (above
energy_full = 37500) and rate = 1 mW, the specification formula yields 0
(shortfall clamped), but the code returns 4258967296: the guard
`if (unlikely(energy_missing) < 0)` compares the 0/1 result of the
`unlikely` macro with 0, so the clamp never fires and the negative
shortfall -10 wraps through the unsigned 64-bit arithmetic. -/
theorem C2_clamp_bug_eval :
    battery_energy devOvercharged = 37510 ∧
    battery_rate devOvercharged = 1 ∧
    time_to_full_spec devOvercharged = 0 ∧
    battery_time_to_full devOvercharged = 4258967296 ∧
    battery_time_to_full devOvercharged ≠ time_to_full_spec devOvercharged := by
  decide

/-- Claim C3: read_byte retries the write phase up to 5 attempts and, only
on write-phase success, retries the read phase up to 5 attempts; on
exhaustion of either phase it returns the sentinel 0x00 (write-phase
exhaustion performs no read-phase transfer at all), and on read-phase
success it returns the received byte. -/
theorem C3_retry_policy :
    (∀ reg w r v, (read_byte_register reg w r v).writeMsgs.length ≤ max_tries ∧
      (read_byte_register reg w r v).readAttempts ≤ max_tries) ∧
    (∀ reg w r v, (∀ i < max_tries, w i ≠ 1) →
      read_byte_register reg w r v =
        ⟨0x00, List.replicate max_tries (write_msg reg), 0⟩) ∧
    (∀ reg w r v i, i < max_tries → w i = 1 → (∀ k < i, w k ≠ 1) →
      (∀ k < max_tries, r k ≠ 1) →
      read_byte_register reg w r v =
        ⟨0x00, List.replicate (i + 1) (write_msg reg), max_tries⟩) ∧
    (∀ reg w r v i j, i < max_tries → w i = 1 → (∀ k < i, w k ≠ 1) →
      j < max_tries → r j = 1 → (∀ k < j, r k ≠ 1) →
      read_byte_register reg w r v =
        ⟨v j % 256, List.replicate (i + 1) (write_msg reg), j + 1⟩) :=
  ⟨read_byte_register_attempt_bounds,
   read_byte_register_write_exhausted,
   fun reg w r v i hi hw hwmin hr =>
     read_byte_register_read_exhausted reg w r v i hi hw hwmin hr,
   fun reg w r v i j hi hw hwmin hj hr hrmin =>
     read_byte_register_success reg w r v i j hi hw hwmin hj hr hrmin⟩

/-- Witness for C3_retry_policy: write phase succeeds on the third
attempt, read phase on the second, and the received byte 0xAB is
returned. -/
theorem C3_witness :
    read_byte_register 0xC1 (fun i => if i = 2 then 1 else 0)
      (fun j => if j = 1 then 1 else -1) (fun _ => 0xAB) =
      ⟨0xAB, List.replicate 3 (write_msg 0xC1), 2⟩ := by
  exact C3_retry_policy.2.2.2 0xC1 (fun i => if i = 2 then 1 else 0)
    (fun j => if j = 1 then 1 else -1) (fun _ => 0xAB) 2 1
    (by decide) (by decide) (by decide) (by decide) (by decide) (by decide)

/-- Claim C4: the rate derivation applies signed-magnitude correction to
the raw RATE word (if raw > 0x7FFF the magnitude is 0x10000 - raw,
otherwise raw unchanged) and multiplies by voltage_now; raw 0x8000 maps to
magnitude 0x8000, raw 0x7FFF maps to itself, and the result is 0 whenever
voltage_now is 0. -/
theorem C4_rate_sign_correction :
    (∀ dev, battery_rate dev =
      signed_magnitude (read_word_register dev BATTERY_REGISTER_RATE) *
        battery_voltage dev) ∧
    signed_magnitude 0x8000 = 0x8000 ∧
    signed_magnitude 0x7FFF = 0x7FFF ∧
    read_word_register devRate8000 BATTERY_REGISTER_RATE = 0x8000 ∧
    battery_rate devRate8000 = 0x8000 ∧
    read_word_register devRate7FFF BATTERY_REGISTER_RATE = 0x7FFF ∧
    battery_rate devRate7FFF = 0x7FFF ∧
    (∀ dev, battery_voltage dev = 0 → battery_rate dev = 0) := by
  refine ⟨fun dev => rfl, by decide, by decide, by decide, by decide,
    by decide, by decide, ?_⟩
  intro dev h
  simp [battery_rate, h]

/-- Witness for C4_rate_sign_correction on a device whose voltage is 0 but
whose raw RATE word is the nonzero 0x8000. -/
theorem C4_witness :
    battery_voltage devVoltageZero = 0 ∧ battery_rate devVoltageZero = 0 :=
  ⟨by decide, C4_rate_sign_correction.2.2.2.2.2.2.2 devVoltageZero (by decide)⟩

/-- Claim C5: capacity_level checks, in order, capacity = 100 (FULL), then
≤ 5 (CRITICAL), then ≤ 15 (LOW), else NORMAL, so a capacity of 100 always
yields FULL; and with raw ENERGY bytes low = 0x64, high = 0x00 the energy
is 1000 mWh, the capacity 100 * 1000 / 37500 = 2, and the level CRITICAL. -/
theorem C5_capacity_level :
    (∀ dev, battery_capaity_level dev =
      (if battery_capacity dev = 100 then POWER_SUPPLY_CAPACITY_LEVEL_FULL
       else if battery_capacity dev ≤ 5 then POWER_SUPPLY_CAPACITY_LEVEL_CRITICAL
       else if battery_capacity dev ≤ 15 then POWER_SUPPLY_CAPACITY_LEVEL_LOW
       else POWER_SUPPLY_CAPACITY_LEVEL_NORMAL)) ∧
    (∀ dev, battery_capacity dev = 100 →
      battery_capaity_level dev = POWER_SUPPLY_CAPACITY_LEVEL_FULL) ∧
    battery_energy devEnergy100 = 1000 ∧
    battery_capacity devEnergy100 = 2 ∧
    battery_capaity_level devEnergy100 = POWER_SUPPLY_CAPACITY_LEVEL_CRITICAL := by
  refine ⟨fun dev => rfl, ?_, by decide, by decide, by decide⟩
  intro dev h
  simp [battery_capaity_level, h]

/-- Witness for C5_capacity_level at a device whose capacity is exactly
100. -/
theorem C5_witness :
    battery_capacity devEnergyFull = 100 ∧
    battery_capaity_level devEnergyFull = POWER_SUPPLY_CAPACITY_LEVEL_FULL :=
  ⟨by decide, C5_capacity_level.2.1 devEnergyFull (by decide)⟩

/-- Claim C6: for every register address, read_word(reg) equals
read_byte(reg) | (read_byte(reg + 1) << 8), the little-endian composition
of the two byte reads. -/
theorem C6_word_little_endian :
    ∀ dev reg, read_word_register dev reg =
      read_byte dev reg ||| (read_byte dev (reg + 1)) <<< 8 := by
  intro dev reg
  simp [read_word_register, Nat.or_comm]

/-- Claim C7 as stated is false: the write phase of read_byte sends a
5-byte transfer (msg.len = 5), not a 3-byte one — the first three bytes are
0x02, 0x80 and the register address, followed by two zero bytes of the
zero-initialised buffer. -/
theorem C7_counterexample :
    (read_byte_register 0xC1 (fun _ => 1) (fun _ => 1)
      (fun _ => 0)).writeMsgs = [write_msg 0xC1] ∧
    sent_bytes (write_msg 0xC1) = [0x02, 0x80, 0xC1, 0x00, 0x00] ∧
    (sent_bytes (write_msg 0xC1)).length ≠ 3 := by
  decide

/-- Claim C7 (amended): every write-phase transfer of read_byte sends the
same single message, a 5-byte write (flags 0) whose first three bytes are
the mode-select byte 0x02, the addressing-mode byte 0x80 and the target
register address, followed by two zero padding bytes. -/
theorem C7_amended :
    ∀ reg w r v,
      (∃ n, (read_byte_register reg w r v).writeMsgs =
        List.replicate n (write_msg reg)) ∧
      sent_bytes (write_msg reg) = [0x02, 0x80, reg % 256, 0x00, 0x00] ∧
      (write_msg reg).flags = 0 ∧ (write_msg reg).len = 5 := by
  intro reg w r v
  refine ⟨?_, rfl, rfl, rfl⟩
  unfold read_byte_register
  rcases hw : firstSuccess w max_tries with _ | i
  · exact ⟨max_tries, rfl⟩
  · rcases hr : firstSuccess r max_tries with _ | j
    · exact ⟨i + 1, rfl⟩
    · exact ⟨i + 1, rfl⟩

/-- Claim C8: current equals rate / voltage_now with result 0 when
voltage_now is 0; and with raw RATE word 0xFF9C (-100) and voltage_now
7400 mV, the rate is 100 * 7400 = 740000 mW and the current
740000 / 7400 = 100 mA. -/
theorem C8_current :
    (∀ dev, battery_current dev =
      if battery_voltage dev = 0 then 0
      else battery_rate dev / battery_voltage dev) ∧
    read_word_register devRateNeg100 BATTERY_REGISTER_RATE = 0xFF9C ∧
    battery_voltage devRateNeg100 = 7400 ∧
    battery_rate devRateNeg100 = 740000 ∧
    battery_current devRateNeg100 = 100 :=
  ⟨fun dev => rfl, by decide, by decide, by decide, by decide⟩

/-- Claim C9 as stated is false: CAPACITY_LEVEL is outside the fixed
supported set advertised to the framework (`battery_properties`), yet
battery_get_property answers it with success 0 and a value, not with the
unsupported signal. -/
theorem C9_counterexample :
    PsyProperty.CAPACITY_LEVEL ∉ battery_properties ∧
    (battery_get_property devZero PsyProperty.CAPACITY_LEVEL).1 = 0 ∧
    (battery_get_property devZero PsyProperty.CAPACITY_LEVEL).2 =
      some (.intval 1) := by
  decide

/-- Claim C9 (amended): every identifier outside the fixed supported set
other than CAPACITY_LEVEL gets the distinct unsupported signal -EINVAL
(negative) with no value written; every identifier in the supported set,
and also CAPACITY_LEVEL (handled by the dispatcher although absent from the
advertised list), gets success 0 with a value filled in. -/
theorem C9_amended :
    ∀ dev p,
      ((p ∈ battery_properties ∨ p = PsyProperty.CAPACITY_LEVEL) →
        (battery_get_property dev p).1 = 0 ∧
          ((battery_get_property dev p).2).isSome = true) ∧
      ((p ∉ battery_properties ∧ p ≠ PsyProperty.CAPACITY_LEVEL) →
        (battery_get_property dev p).1 = -EINVAL ∧
          (battery_get_property dev p).1 < 0 ∧
          (battery_get_property dev p).2 = none) := by
  intro dev p
  refine ⟨fun h => ?_, fun h => ?_⟩
  · cases p
    case UNHANDLED code =>
      exfalso
      rcases h with h | h
      · simp [battery_properties] at h
      · exact PsyProperty.noConfusion h
    all_goals exact ⟨rfl, rfl⟩
  · cases p
    case UNHANDLED code =>
      exact ⟨rfl, by norm_num [battery_get_property, EINVAL], rfl⟩
    case CAPACITY_LEVEL => exact absurd rfl h.2
    all_goals exact absurd (by decide) h.1

/-- Witness for C9_amended: STATUS is supported and succeeds; the
unhandled identifier 99 gets the negative unsupported signal. -/
theorem C9_witness :
    ((battery_get_property devZero PsyProperty.STATUS).1 = 0 ∧
      ((battery_get_property devZero PsyProperty.STATUS).2).isSome = true) ∧
    ((battery_get_property devZero (PsyProperty.UNHANDLED 99)).1 = -EINVAL ∧
      (battery_get_property devZero (PsyProperty.UNHANDLED 99)).1 < 0 ∧
      (battery_get_property devZero (PsyProperty.UNHANDLED 99)).2 = none) :=
  ⟨(C9_amended devZero PsyProperty.STATUS).1 (Or.inl (by decide)),
   (C9_amended devZero (PsyProperty.UNHANDLED 99)).2 ⟨by decide, by decide⟩⟩

set_option maxRecDepth 4096 in
/-- Claim C10: for every status byte, battery_status returns discharging,
charging or full; the final "unknown" branch is unreachable because
whenever bits 0 and 1 are both clear, the `(status & 0x03) == 0x00` test
already matches. -/
theorem C10_status_total :
    ∀ dev, battery_status dev = POWER_SUPPLY_STATUS_DISCHARGING ∨
      battery_status dev = POWER_SUPPLY_STATUS_CHARGING ∨
      battery_status dev = POWER_SUPPLY_STATUS_FULL := by
  intro dev
  have key : ∀ s < 256,
      (if s &&& 0x01 ≠ 0 then POWER_SUPPLY_STATUS_DISCHARGING
       else if s &&& 0x02 ≠ 0 then POWER_SUPPLY_STATUS_CHARGING
       else if s &&& 0x03 = 0 then POWER_SUPPLY_STATUS_FULL
       else POWER_SUPPLY_STATUS_UNKNOWN) = POWER_SUPPLY_STATUS_DISCHARGING ∨
      (if s &&& 0x01 ≠ 0 then POWER_SUPPLY_STATUS_DISCHARGING
       else if s &&& 0x02 ≠ 0 then POWER_SUPPLY_STATUS_CHARGING
       else if s &&& 0x03 = 0 then POWER_SUPPLY_STATUS_FULL
       else POWER_SUPPLY_STATUS_UNKNOWN) = POWER_SUPPLY_STATUS_CHARGING ∨
      (if s &&& 0x01 ≠ 0 then POWER_SUPPLY_STATUS_DISCHARGING
       else if s &&& 0x02 ≠ 0 then POWER_SUPPLY_STATUS_CHARGING
       else if s &&& 0x03 = 0 then POWER_SUPPLY_STATUS_FULL
       else POWER_SUPPLY_STATUS_UNKNOWN) = POWER_SUPPLY_STATUS_FULL := by
    decide
  have hb : read_byte dev BATTERY_REGISTER_STATUS < 256 :=
    Nat.mod_lt _ (by decide)
  exact key (read_byte dev BATTERY_REGISTER_STATUS) hb

end AcerSwitchBattery
